import Mathlib

/-!
Verification of the WorkflowGene policy-gated profile store.

Shallow embedding of:
  * `supabase/migrations/20250930132131_mellow_forest.sql`
    (RLS policies on `profiles`, the `handle_new_user` trigger function,
    and the super-admin bootstrap DO block), and
  * `src/lib/auth.js` (the facade: `signUp`, `signIn`, `signOut`,
    `resetPassword`, `updatePassword`, `updateProfile`,
    `getCurrentProfile`, `ensureSuperAdmin`).

The profiles table is modelled as a `List Profile`; ids are `Nat`,
timestamps are `Nat`, SQL `NULL` is `Option`.  SQL three-valued equality
on nullable columns (`NULL = x` is not true) is modelled explicitly where
it matters (the org-scoped select policy).
-/

namespace WorkflowGene

/-- The reserved super-admin address, hardcoded in both the migration and
`src/lib/auth.js`. -/
def superAdminEmail : String := "superadmin@workflowgene.cloud"

/-- Role enumeration `user_role` (`user`, `org_admin`, `manager`,
`super_admin`). -/
inductive Role where
  | user
  | org_admin
  | manager
  | super_admin
deriving DecidableEq, Repr

/-- A row of the `profiles` table. -/
structure Profile where
  id : Nat
  email : String
  first_name : String
  last_name : String
  role : Role
  organization_id : Option Nat
  email_verified : Bool
  is_active : Bool
  created_at : Nat
  updated_at : Nat
deriving DecidableEq, Repr

/-- An authenticated principal from `auth.users` (the external identity
provider): id, email, confirmation timestamp, raw user metadata names. -/
structure Principal where
  id : Nat
  email : String
  email_confirmed_at : Option Nat
  meta_first_name : Option String
  meta_last_name : Option String
deriving DecidableEq, Repr

/-- Number of rows of `table` whose `id` equals `i`. -/
def countId (table : List Profile) (i : Nat) : Nat :=
  (table.filter (fun p => p.id = i)).length

/-- `EXISTS (SELECT 1 FROM profiles WHERE id = i)`, i.e. the
`ON CONFLICT` test of the upserts. -/
def hasId (table : List Profile) (i : Nat) : Bool :=
  table.any (fun p => p.id = i)

/-! ## `handle_new_user` (migration, trigger on new auth users) -/

/-- Role derivation of `handle_new_user`: `user_role := 'user'`,
`org_id := NULL`, overridden to `super_admin` (org forced `NULL`) exactly
when `NEW.email = 'superadmin@workflowgene.cloud'`. -/
def triggerRole (email : String) : Role × Option Nat :=
  if email = superAdminEmail then (Role.super_admin, none)
  else (Role.user, none)

/-- The row inserted by `handle_new_user` when no profile with `NEW.id`
exists.  `is_active` is not in the column list of the `INSERT`, so it
takes the table default (`true`, per the schema described in the spec;
the defining migration is not in the sources). -/
def triggerInsertRow (now : Nat) (u : Principal) : Profile :=
  { id := u.id
    email := u.email
    first_name := u.meta_first_name.getD ""
    last_name := u.meta_last_name.getD ""
    role := (triggerRole u.email).1
    organization_id := (triggerRole u.email).2
    email_verified := u.email_confirmed_at.isSome
    is_active := true
    created_at := now
    updated_at := now }

/-- The `ON CONFLICT (id) DO UPDATE` branch of `handle_new_user`:
only `email`, `email_verified` and `updated_at` are assigned. -/
def triggerConflictUpdate (now : Nat) (u : Principal) (p : Profile) : Profile :=
  { p with
    email := u.email
    email_verified := u.email_confirmed_at.isSome
    updated_at := now }

/-- The body of `handle_new_user`: an atomic
`INSERT ... ON CONFLICT (id) DO UPDATE` keyed by the principal id. -/
def handle_new_user (now : Nat) (u : Principal) (table : List Profile) :
    List Profile :=
  if hasId table u.id then
    table.map (fun p => if p.id = u.id then triggerConflictUpdate now u p else p)
  else
    triggerInsertRow now u :: table

/-- `handle_new_user` including its `EXCEPTION WHEN OTHERS` handler: the
first component is whether the enclosing auth operation proceeds
(`RETURN NEW`); it is `true` on both the normal and the exception path,
and on the exception path the table is left as the failed write left it
(modelled as unchanged). -/
def handle_new_user_run (writeFails : Bool) (now : Nat) (u : Principal)
    (table : List Profile) : Bool × List Profile :=
  if writeFails then (true, table)
  else (true, handle_new_user now u table)

/-! ## `signUp` facade (`src/lib/auth.js`) -/

/-- Uniform facade result `{success, error?}`. -/
structure AuthResult where
  success : Bool
  error : Option String
deriving DecidableEq, Repr

/-- Whitespace as JavaScript's `String.prototype.trim()` strips it
(the characters relevant to email/organization-name inputs). -/
def isWhitespaceChar (c : Char) : Bool :=
  c = ' ' || c = '\t' || c = '\n' || c = '\r'

/-- JavaScript `s.trim()`: strip leading and trailing whitespace. -/
def jsTrim (s : String) : String :=
  String.mk (((s.toList.dropWhile isWhitespaceChar).reverse.dropWhile
    isWhitespaceChar).reverse)

/-- Role derivation in `signUp` (lines 232-239 of `auth.js`):
`'user'` by default; the reserved address gets `'super_admin'` with
`organizationId` forced to `null` even when an organization was created;
otherwise a created organization upgrades the signer to `'org_admin'`. -/
def signUpRole (email : String) (organizationId : Option Nat) :
    Role × Option Nat :=
  if email = superAdminEmail then (Role.super_admin, none)
  else if organizationId.isSome then (Role.org_admin, organizationId)
  else (Role.user, organizationId)

/-- The profile upsert of `signUp`
(`supabase.from('profiles').upsert({...}, { onConflict: 'id' })`):
every supplied column is written on conflict, so an existing row has
`email, first_name, last_name, organization_id, role, email_verified,
created_at, updated_at` all overwritten; only `is_active` (not supplied)
is kept. -/
def signUpUpsert (now : Nat) (uid : Nat) (email fn ln : String)
    (orgId : Option Nat) (r : Role) (confirmed : Bool)
    (table : List Profile) : List Profile :=
  if hasId table uid then
    table.map (fun p =>
      if p.id = uid then
        { p with
          email := email
          first_name := fn
          last_name := ln
          organization_id := orgId
          role := r
          email_verified := confirmed
          created_at := now
          updated_at := now }
      else p)
  else
    { id := uid, email := email, first_name := fn, last_name := ln,
      role := r, organization_id := orgId, email_verified := confirmed,
      is_active := true, created_at := now, updated_at := now } :: table

/-- The external outcomes `signUp` observes: store configuration, the
auth-level sign-up result (`error` / `data.user`), whether the
organization insert fails, the id the store assigns to a new
organization, and whether the profile upsert fails. -/
structure SignUpEnv where
  configured : Bool
  authError : Option String
  authUser : Option Principal
  orgInsertFails : Bool
  newOrgId : Nat
  profileUpsertFails : Bool
deriving DecidableEq, Repr

/-- `signUp` from `src/lib/auth.js`.  Returns the facade result and the
profiles table after the call.  Organization-creation and
profile-upsert errors are only logged: the function still returns
`{success: true}` once the auth-level sign-up succeeded. -/
def signUp (env : SignUpEnv) (now : Nat)
    (email firstName lastName organizationName : String)
    (table : List Profile) : AuthResult × List Profile :=
  if ¬env.configured then
    ({ success := false,
       error := some "Authentication service not configured. Please check your Supabase configuration." },
     table)
  else
    match env.authError with
    | some msg =>
        ({ success := false, error := some msg }, table)
    | none =>
        match env.authUser with
        | none => ({ success := true, error := none }, table)
        | some u =>
            let organizationId : Option Nat :=
              if jsTrim organizationName ≠ "" ∧ ¬env.orgInsertFails then
                some env.newOrgId
              else none
            let rc := signUpRole (jsTrim email) organizationId
            let table' :=
              if env.profileUpsertFails then table
              else
                signUpUpsert now u.id (jsTrim email) firstName lastName
                  rc.2 rc.1 u.email_confirmed_at.isSome table
            ({ success := true, error := none }, table')

/-! ## `ensureSuperAdmin` (`src/lib/auth.js`) and the migration DO block -/

/-- The field assignments shared by the corrective writes for the
reserved super-admin profile (`ensureSuperAdmin`'s update and the DO
block's `UPDATE`/insert branch): role `super_admin`, verified, names
`Super`/`Admin`, no organization, active, fresh `updated_at`. -/
def saFix (now : Nat) (p : Profile) : Profile :=
  { p with
    role := Role.super_admin
    email_verified := true
    first_name := "Super"
    last_name := "Admin"
    organization_id := none
    is_active := true
    updated_at := now }

/-- `ensureSuperAdmin` from `src/lib/auth.js`: look up the profile with
the reserved email (`maybeSingle`); update it — by email — only when the
found profile's `role` is not `'super_admin'`; otherwise do nothing (the
`else if` branch only logs). -/
def ensureSuperAdmin (now : Nat) (table : List Profile) : List Profile :=
  match table.find? (fun p => p.email = superAdminEmail) with
  | none => table
  | some p =>
      if p.role ≠ Role.super_admin then
        table.map (fun q => if q.email = superAdminEmail then saFix now q else q)
      else table

/-- The `ON CONFLICT (id) DO UPDATE` of the DO block's insert branch:
assigns role, organization_id, email_verified, names and updated_at —
but not `is_active`. -/
def doBlockConflictUpdate (now : Nat) (p : Profile) : Profile :=
  { p with
    role := Role.super_admin
    organization_id := none
    email_verified := true
    first_name := "Super"
    last_name := "Admin"
    updated_at := now }

/-- The super-admin bootstrap DO block of the migration: if no profile
row carries the reserved email, insert one from the matching `auth.users`
row (upsert on id); otherwise update — by email — every matching profile
to the canonical super-admin shape. -/
def migrationBootstrap (authUsers : List Principal) (now : Nat)
    (table : List Profile) : List Profile :=
  if table.any (fun p => p.email = superAdminEmail) then
    table.map (fun q => if q.email = superAdminEmail then saFix now q else q)
  else
    match authUsers.find? (fun u => u.email = superAdminEmail) with
    | none => table
    | some u =>
        if hasId table u.id then
          table.map (fun q => if q.id = u.id then doBlockConflictUpdate now q else q)
        else
          { id := u.id, email := u.email, first_name := "Super",
            last_name := "Admin", role := Role.super_admin,
            organization_id := none, email_verified := true,
            is_active := true, created_at := now, updated_at := now } :: table

/-! ## Access Policy Engine (RLS policies of the migration)

The four permissive policies on `profiles` for the `authenticated` role:
`profiles_select_own`, `profiles_super_admin_select_all`,
`profiles_org_admin_select_org` (select), and `profiles_update_own`,
`profiles_super_admin_update_all` (update).  The `EXISTS` subqueries test
the acting principal's own stored profile row, so the actor is modelled
as that row.  Permissive policies are OR-ed. -/

/-- SQL equality on the nullable `organization_id` columns:
`p.organization_id = profiles.organization_id` is true only when both
sides are non-null and equal (`NULL = NULL` is not true). -/
def sqlOrgEq (a b : Option Nat) : Bool :=
  match a, b with
  | some x, some y => x = y
  | _, _ => false

/-- Row-level SELECT permission on `profiles` for an authenticated
actor: own row, or actor is `super_admin`, or actor is
`org_admin`/`manager` with SQL-equal organization_id. -/
def canSelectProfile (actor target : Profile) : Bool :=
  (actor.id = target.id)
  || (actor.role = Role.super_admin)
  || ((actor.role = Role.org_admin || actor.role = Role.manager)
      && sqlOrgEq actor.organization_id target.organization_id)

/-- Row-level UPDATE permission on `profiles` (the `USING` clauses of
`profiles_update_own` and `profiles_super_admin_update_all`): own row or
actor is `super_admin`. -/
def canUpdateProfile (actor target : Profile) : Bool :=
  (actor.id = target.id) || (actor.role = Role.super_admin)

/-- Full UPDATE admission: both policies lack a `WITH CHECK` clause, so
Postgres applies their `USING` predicate to the updated row as well; an
update is allowed when the old row passes some policy's `USING` and the
new row passes some policy's check. -/
def updateAllowed (actor oldRow newRow : Profile) : Bool :=
  canUpdateProfile actor oldRow && canUpdateProfile actor newRow

/-- Outcome of a `.single()` row fetch as the client sees it.
`notFoundPGRST116` is the PostgREST "no (or multiple) rows" error code
that `getCurrentProfile` branches on; `authorizationError` is the
distinct forbidden outcome the spec calls for. -/
inductive FetchOutcome where
  | row (p : Profile)
  | notFoundPGRST116
  | authorizationError
deriving DecidableEq, Repr

/-- `SELECT * FROM profiles WHERE id = i` under RLS, followed by
`.single()`: RLS filters out rows the actor may not see; `.single()`
yields the row when exactly one remains and the `PGRST116` error
otherwise.  A policy denial therefore surfaces as `PGRST116`, never as a
distinct authorization error. -/
def selectProfileById (actor : Profile) (table : List Profile) (i : Nat) :
    FetchOutcome :=
  match table.filter (fun p => p.id = i && canSelectProfile actor p) with
  | [p] => FetchOutcome.row p
  | _ => FetchOutcome.notFoundPGRST116

/-! ## Remaining facade operations (`src/lib/auth.js`)

Each operation is modelled as the `Except String AuthResult` the caller
observes: `Except.ok r` is a returned `{success, error?}` value and
`Except.error m` is an exception escaping to the caller.  The external
API outcomes the operation branches on are parameters. -/

/-- `signIn`: unconfigured store and every auth error are returned as
`{success: false, ...}`; the whole body is inside `try/catch`. -/
def signIn (configured : Bool) (authError : Option String) :
    Except String AuthResult :=
  if ¬configured then
    Except.ok { success := false,
                error := some "Authentication service not configured. Please check your Supabase configuration." }
  else
    match authError with
    | some msg => Except.ok { success := false, error := some msg }
    | none => Except.ok { success := true, error := none }

/-- `signUp` as the caller observes it: the body of `signUp` is inside
`try/catch` and every branch returns a result. -/
def signUpResult (env : SignUpEnv) (now : Nat)
    (email firstName lastName organizationName : String)
    (table : List Profile) : Except String AuthResult :=
  Except.ok (signUp env now email firstName lastName organizationName table).1

/-- `signOut`: no configuration check; the API error is thrown inside
the function's own `try` and caught by its `catch`, which returns
`{success: false, error}`. -/
def signOut (apiError : Option String) : Except String AuthResult :=
  match apiError with
  | some msg => Except.ok { success := false, error := some msg }
  | none => Except.ok { success := true, error := none }

/-- `resetPassword`: the unconfigured-store check sits BEFORE the `try`
block and raises `throw new Error('Authentication service not
configured')`, which escapes to the caller; only the API error is caught
and returned as a result. -/
def resetPassword (configured : Bool) (apiError : Option String) :
    Except String AuthResult :=
  if ¬configured then
    Except.error "Authentication service not configured"
  else
    match apiError with
    | some msg => Except.ok { success := false, error := some msg }
    | none => Except.ok { success := true, error := none }

/-- `updatePassword`: no configuration check; the whole body is inside
`try/catch` and both branches return a result. -/
def updatePassword (apiError : Option String) : Except String AuthResult :=
  match apiError with
  | some msg => Except.ok { success := false, error := some msg }
  | none => Except.ok { success := true, error := none }

/-- The caller-supplied `profileData` of `updateProfile`: any subset of
profile columns may be present and is written verbatim (the object is
spread into the `update`), including `role` and `organization_id`. -/
structure ProfilePatch where
  email : Option String := none
  first_name : Option String := none
  last_name : Option String := none
  role : Option Role := none
  organization_id : Option (Option Nat) := none
  email_verified : Option Bool := none
  is_active : Option Bool := none
deriving DecidableEq, Repr

/-- Applying `{...profileData, updated_at: now}` to a row. -/
def applyPatch (patch : ProfilePatch) (now : Nat) (p : Profile) : Profile :=
  { p with
    email := patch.email.getD p.email
    first_name := patch.first_name.getD p.first_name
    last_name := patch.last_name.getD p.last_name
    role := patch.role.getD p.role
    organization_id := patch.organization_id.getD p.organization_id
    email_verified := patch.email_verified.getD p.email_verified
    is_active := patch.is_active.getD p.is_active
    updated_at := now }

/-- `updateProfile`: requires a current user (otherwise the thrown
"No authenticated user" is caught and returned as a failure); updates
the rows with `id = user.id`, each subject to the RLS update admission
with the stored own row as both actor and old row; the trailing
`.select().single()` makes the call fail when no row was updated.  The
whole body is inside `try/catch`, so the caller always gets a result. -/
def updateProfile (currentUser : Option Nat) (patch : ProfilePatch)
    (now : Nat) (table : List Profile) : AuthResult × List Profile :=
  match currentUser with
  | none => ({ success := false, error := some "No authenticated user" }, table)
  | some uid =>
      let table' := table.map (fun p =>
        if p.id = uid && updateAllowed p p (applyPatch patch now p) then
          applyPatch patch now p
        else p)
      if table.any (fun p => p.id = uid && updateAllowed p p (applyPatch patch now p)) then
        ({ success := true, error := none }, table')
      else
        ({ success := false, error := some "PGRST116" }, table)

/-- `updateProfile` as the caller observes it: always a returned
result. -/
def updateProfileResult (currentUser : Option Nat) (patch : ProfilePatch)
    (now : Nat) (table : List Profile) : Except String AuthResult :=
  Except.ok (updateProfile currentUser patch now table).1

/-- `getCurrentProfile`: fetch the own row (`eq('id', user.id).single()`,
always visible under `profiles_select_own`); on `PGRST116` (missing
profile) insert a fresh row — with the same email-based role derivation
as the trigger — and re-fetch it.  Returns the profile (or `none` on
unconfigured store, no user, or insert failure) and the table after the
call. -/
def getCurrentProfile (configured : Bool) (currentUser : Option Principal)
    (insertFails : Bool) (now : Nat) (table : List Profile) :
    Option Profile × List Profile :=
  if ¬configured then (none, table)
  else
    match currentUser with
    | none => (none, table)
    | some u =>
        match table.find? (fun p => p.id = u.id) with
        | some p => (some p, table)
        | none =>
            if insertFails then (none, table)
            else
              let newP : Profile :=
                { id := u.id
                  email := u.email
                  email_verified := u.email_confirmed_at.isSome
                  role := if u.email = superAdminEmail then Role.super_admin
                          else Role.user
                  first_name := u.meta_first_name.getD ""
                  last_name := u.meta_last_name.getD ""
                  organization_id := none
                  is_active := true
                  created_at := now
                  updated_at := now }
              let t' := newP :: table
              (t'.find? (fun p => p.id = u.id), t')

/-! ## Operation alphabet over the profiles store (for the uniqueness
invariant) -/

/-- The operations that touch the profiles table: the bootstrap trigger,
the facade `signUp`, the `ensureSuperAdmin` reconciliation and the
migration DO block. -/
inductive StoreOp where
  | trigger (u : Principal) (now : Nat)
  | facadeSignUp (env : SignUpEnv) (now : Nat)
      (email firstName lastName organizationName : String)
  | reconcile (now : Nat)
  | migrate (authUsers : List Principal) (now : Nat)

/-- Effect of one operation on the profiles table. -/
def applyOp (table : List Profile) : StoreOp → List Profile
  | StoreOp.trigger u now => handle_new_user now u table
  | StoreOp.facadeSignUp env now email fn ln orgName =>
      (signUp env now email fn ln orgName table).2
  | StoreOp.reconcile now => ensureSuperAdmin now table
  | StoreOp.migrate authUsers now => migrationBootstrap authUsers now table

/-- Whether a facade call ended as a returned `{success, error?}` value
(`Except.ok`) rather than an exception escaping to the caller. -/
def isReturned : Except String AuthResult → Bool
  | Except.ok _ => true
  | Except.error _ => false

/-! ## General lemmas -/

/-- The profile row a table holds for id `i`. -/
def rowFor (table : List Profile) (i : Nat) : Option Profile :=
  table.find? (fun p => p.id = i)

theorem rowFor_cons_self (r : Profile) (t : List Profile) (i : Nat)
    (h : r.id = i) : rowFor (r :: t) i = some r := by
  simp [rowFor, List.find?_cons_of_pos, h]

/-! ## C1 -/

/-- C1: role derivation at bootstrap.  Trigger path (`handle_new_user`)
for a newly observed principal: the inserted row has role `super_admin`
and null `organization_id` exactly when the email is the reserved
super-admin address, else role `user`.  `signUp` path: the upserted row
is `super_admin` with null `organization_id` when the (trimmed) email is
the reserved address — even when an organization name was supplied —
and otherwise `user`, upgraded to `org_admin` exactly when an
organization row was simultaneously created. -/
theorem c1_bootstrap_role_derivation
    (now : Nat) (u : Principal) (table : List Profile)
    (env : SignUpEnv) (email fn ln orgName : String)
    (hconf : env.configured = true) (hae : env.authError = none)
    (hau : env.authUser = some u)
    (hfresh : hasId table u.id = false)
    (hup : env.profileUpsertFails = false) :
    ((rowFor (handle_new_user now u table) u.id).map Profile.role =
        some (if u.email = superAdminEmail then Role.super_admin else Role.user)
      ∧ (rowFor (handle_new_user now u table) u.id).map Profile.organization_id =
        some none)
    ∧ (jsTrim email = superAdminEmail →
        (rowFor (signUp env now email fn ln orgName table).2 u.id).map Profile.role =
          some Role.super_admin
        ∧ (rowFor (signUp env now email fn ln orgName table).2 u.id).map
            Profile.organization_id = some none)
    ∧ (jsTrim email ≠ superAdminEmail →
        ((jsTrim orgName ≠ "" → env.orgInsertFails = false →
          (rowFor (signUp env now email fn ln orgName table).2 u.id).map Profile.role =
            some Role.org_admin
          ∧ (rowFor (signUp env now email fn ln orgName table).2 u.id).map
              Profile.organization_id = some (some env.newOrgId))
        ∧ (jsTrim orgName = "" ∨ env.orgInsertFails = true →
          (rowFor (signUp env now email fn ln orgName table).2 u.id).map Profile.role =
            some Role.user
          ∧ (rowFor (signUp env now email fn ln orgName table).2 u.id).map
              Profile.organization_id = some none))) := by
  have htrig : handle_new_user now u table = triggerInsertRow now u :: table := by
    simp [handle_new_user, hfresh]
  have htrow : rowFor (handle_new_user now u table) u.id =
      some (triggerInsertRow now u) := by
    rw [htrig]; exact rowFor_cons_self _ _ _ rfl
  have hupsert : ∀ (orgId : Option Nat) (r : Role),
      rowFor (signUpUpsert now u.id (jsTrim email) fn ln orgId r
        u.email_confirmed_at.isSome table) u.id =
      some { id := u.id, email := (jsTrim email), first_name := fn, last_name := ln,
             role := r, organization_id := orgId,
             email_verified := u.email_confirmed_at.isSome,
             is_active := true, created_at := now, updated_at := now } := by
    intro orgId r
    have hcond : signUpUpsert now u.id (jsTrim email) fn ln orgId r
        u.email_confirmed_at.isSome table =
        { id := u.id, email := (jsTrim email), first_name := fn, last_name := ln,
          role := r, organization_id := orgId,
          email_verified := u.email_confirmed_at.isSome,
          is_active := true, created_at := now, updated_at := now } :: table := by
      simp [signUpUpsert, hfresh]
    rw [hcond]
    exact rowFor_cons_self _ _ _ rfl
  have htab : (signUp env now email fn ln orgName table).2 =
      signUpUpsert now u.id (jsTrim email) fn ln
        (signUpRole (jsTrim email)
          (if jsTrim orgName ≠ "" ∧ ¬env.orgInsertFails then some env.newOrgId else none)).2
        (signUpRole (jsTrim email)
          (if jsTrim orgName ≠ "" ∧ ¬env.orgInsertFails then some env.newOrgId else none)).1
        u.email_confirmed_at.isSome table := by
    simp [signUp, hconf, hae, hau, hup]
  refine ⟨⟨?_, ?_⟩, ?_, ?_⟩
  · rw [htrow]; simp [triggerInsertRow, triggerRole]
    split <;> simp
  · rw [htrow]; simp [triggerInsertRow, triggerRole]
    split <;> simp
  · intro hsa
    have hrole : signUpRole (jsTrim email)
        (if jsTrim orgName ≠ "" ∧ ¬env.orgInsertFails then some env.newOrgId else none) =
        (Role.super_admin, none) := by
      simp [signUpRole, hsa]
    rw [htab, hrole, hupsert]
    simp
  · intro hnsa
    constructor
    · intro horg hof
      have hrole : signUpRole (jsTrim email)
          (if jsTrim orgName ≠ "" ∧ ¬env.orgInsertFails then some env.newOrgId else none) =
          (Role.org_admin, some env.newOrgId) := by
        simp [signUpRole, hnsa, horg, hof]
      rw [htab, hrole, hupsert]
      simp
    · intro hno
      have hrole : signUpRole (jsTrim email)
          (if jsTrim orgName ≠ "" ∧ ¬env.orgInsertFails then some env.newOrgId else none) =
          (Role.user, none) := by
        rcases hno with h | h <;> simp [signUpRole, hnsa, h]
      rw [htab, hrole, hupsert]
      simp

/-- C1 witness: the reserved address, signed up fresh, yields a
super-admin row via the trigger. -/
theorem c1_bootstrap_role_derivation_witness :
    hasId [] 1 = false ∧
    (rowFor (handle_new_user 0 ⟨1, superAdminEmail, some 5, some "A", some "B"⟩ []) 1).map
      Profile.role = some Role.super_admin := by
  refine ⟨rfl, ?_⟩
  have h := (c1_bootstrap_role_derivation 0 ⟨1, superAdminEmail, some 5, some "A", some "B"⟩ []
      { configured := true, authError := none,
        authUser := some ⟨1, superAdminEmail, some 5, some "A", some "B"⟩,
        orgInsertFails := false, newOrgId := 7, profileUpsertFails := false }
      superAdminEmail "A" "B" "Acme" rfl rfl rfl rfl rfl).1.1
  simpa using h

/-! ## C2 -/

/-- C2 counterexample: a profile for the reserved email whose role is
already `super_admin` but whose `organization_id` has drifted to a
non-null value is NOT corrected by `ensureSuperAdmin`: one run (and
hence any number of runs) leaves `organization_id` non-null, contrary to
the claim that a run corrects `organization_id` to null from any
corrupted state. -/
theorem c2_reconciliation_counterexample :
    ensureSuperAdmin 5
        [{ id := 1, email := superAdminEmail, first_name := "S",
           last_name := "A", role := Role.super_admin,
           organization_id := some 9, email_verified := false,
           is_active := false, created_at := 0, updated_at := 0 }] =
      [{ id := 1, email := superAdminEmail, first_name := "S",
         last_name := "A", role := Role.super_admin,
         organization_id := some 9, email_verified := false,
         is_active := false, created_at := 0, updated_at := 0 }]
    ∧ (some 9 : Option Nat) ≠ none := by
  constructor
  · rfl
  · simp

theorem saFix_email (now : Nat) (p : Profile) : (saFix now p).email = p.email := rfl

theorem ensureSuperAdmin_none (now : Nat) (t : List Profile)
    (hfind : t.find? (fun q => q.email = superAdminEmail) = none) :
    ensureSuperAdmin now t = t := by
  simp [ensureSuperAdmin, hfind]

theorem ensureSuperAdmin_noop (now : Nat) (t : List Profile) (p : Profile)
    (hfind : t.find? (fun q => q.email = superAdminEmail) = some p)
    (hrole : p.role = Role.super_admin) :
    ensureSuperAdmin now t = t := by
  simp [ensureSuperAdmin, hfind, hrole]

theorem ensureSuperAdmin_fix (now : Nat) (t : List Profile) (p : Profile)
    (hfind : t.find? (fun q => q.email = superAdminEmail) = some p)
    (hrole : ¬p.role = Role.super_admin) :
    ensureSuperAdmin now t =
      t.map (fun q => if q.email = superAdminEmail then saFix now q else q) := by
  simp [ensureSuperAdmin, hfind, hrole]

/-- C2 amended: `ensureSuperAdmin` is idempotent, and when the found
profile's role is not `super_admin` one run corrects role,
`organization_id`, flags and names of every row holding the reserved
email; but when the role is already `super_admin` the run is a strict
no-op even if `organization_id` or the flags have drifted.  The
migration DO block's update branch, in contrast, corrects all of these
fields in one run whenever a row with the reserved email exists. -/
theorem c2_reconciliation_amended (now : Nat) (t : List Profile)
    (authUsers : List Principal) :
    (ensureSuperAdmin now (ensureSuperAdmin now t) = ensureSuperAdmin now t)
    ∧ (∀ p, t.find? (fun q => q.email = superAdminEmail) = some p →
        ((p.role ≠ Role.super_admin →
          ∀ q ∈ ensureSuperAdmin now t, q.email = superAdminEmail →
            q.role = Role.super_admin ∧ q.organization_id = none ∧
            q.email_verified = true ∧ q.is_active = true ∧
            q.first_name = "Super" ∧ q.last_name = "Admin")
        ∧ (p.role = Role.super_admin → ensureSuperAdmin now t = t)))
    ∧ (t.any (fun q => q.email = superAdminEmail) = true →
        ∀ q ∈ migrationBootstrap authUsers now t, q.email = superAdminEmail →
          q.role = Role.super_admin ∧ q.organization_id = none ∧
          q.email_verified = true ∧ q.is_active = true) := by
  have hpred : (fun q => decide (q.email = superAdminEmail)) ∘
      (fun q => if q.email = superAdminEmail then saFix now q else q) =
      fun q => decide (q.email = superAdminEmail) := by
    funext q
    by_cases h : q.email = superAdminEmail <;> simp [h, saFix]
  have hmapfix : ∀ q ∈ t.map
      (fun q => if q.email = superAdminEmail then saFix now q else q),
      q.email = superAdminEmail →
        q.role = Role.super_admin ∧ q.organization_id = none ∧
        q.email_verified = true ∧ q.is_active = true ∧
        q.first_name = "Super" ∧ q.last_name = "Admin" := by
    intro q hq hemail
    rcases List.mem_map.mp hq with ⟨r, _, hr⟩
    by_cases h : r.email = superAdminEmail
    · rw [if_pos h] at hr
      subst hr
      simp [saFix]
    · rw [if_neg h] at hr
      subst hr
      exact absurd hemail h
  refine ⟨?_, ?_, ?_⟩
  · match hfind : t.find? (fun q => q.email = superAdminEmail) with
    | none =>
        rw [ensureSuperAdmin_none now t hfind, ensureSuperAdmin_none now t hfind]
    | some p =>
        by_cases hrole : p.role = Role.super_admin
        · rw [ensureSuperAdmin_noop now t p hfind hrole,
            ensureSuperAdmin_noop now t p hfind hrole]
        · have h1 := ensureSuperAdmin_fix now t p hfind hrole
          have hpem : p.email = superAdminEmail := by
            simpa using List.find?_some hfind
          have hfind2 : (t.map
              (fun q => if q.email = superAdminEmail then saFix now q else q)).find?
              (fun q => q.email = superAdminEmail) = some (saFix now p) := by
            rw [List.find?_map _ t, hpred, hfind]
            simp [hpem]
          rw [h1, ensureSuperAdmin_noop now _ (saFix now p) hfind2 rfl]
  · intro p hfind
    constructor
    · intro hrole q hq hemail
      rw [ensureSuperAdmin_fix now t p hfind hrole] at hq
      exact hmapfix q hq hemail
    · intro hrole
      exact ensureSuperAdmin_noop now t p hfind hrole
  · intro hany q hq hemail
    unfold migrationBootstrap at hq
    rw [if_pos hany] at hq
    have h := hmapfix q hq hemail
    exact ⟨h.1, h.2.1, h.2.2.1, h.2.2.2.1⟩

/-- C2 amended witness: a drifted profile (role `user`, non-null
organization) is fully corrected by one `ensureSuperAdmin` run. -/
theorem c2_reconciliation_amended_witness :
    ([(⟨1, superAdminEmail, "x", "y", Role.user, some 3, false, false, 0, 0⟩ :
        Profile)].find? (fun q => q.email = superAdminEmail) =
      some ⟨1, superAdminEmail, "x", "y", Role.user, some 3, false, false, 0, 0⟩)
    ∧ Role.user ≠ Role.super_admin
    ∧ ∀ q ∈ ensureSuperAdmin 4
        [⟨1, superAdminEmail, "x", "y", Role.user, some 3, false, false, 0, 0⟩],
        q.email = superAdminEmail →
          q.role = Role.super_admin ∧ q.organization_id = none ∧
          q.email_verified = true ∧ q.is_active = true ∧
          q.first_name = "Super" ∧ q.last_name = "Admin" := by
  refine ⟨rfl, by simp, ?_⟩
  exact (((c2_reconciliation_amended 4
      [⟨1, superAdminEmail, "x", "y", Role.user, some 3, false, false, 0, 0⟩]
      []).2.1 _ rfl).1 (by simp))

/-! ## C3 -/

theorem rowFor_map_upd (t : List Profile) (i : Nat) (g : Profile → Profile)
    (hg : ∀ p, (g p).id = p.id) (p : Profile) (hp : rowFor t i = some p) :
    rowFor (t.map (fun q => if q.id = i then g q else q)) i = some (g p) := by
  have hpred : (fun q => decide (q.id = i)) ∘
      (fun q => if q.id = i then g q else q) = fun q => decide (q.id = i) := by
    funext q
    by_cases h : q.id = i <;> simp [h, hg]
  unfold rowFor at *
  rw [List.find?_map _ t, hpred, hp]
  have hpi : p.id = i := by simpa using List.find?_some hp
  simp [hpi]

/-- C3 counterexample: the claim is false on the `signUp` upsert path.
A stored `org_admin` profile for principal id 1 is downgraded to role
`user` (and its `organization_id` cleared) by a re-run of `signUp` for
the same principal without an organization name: the upsert writes every
supplied field, not only `email`/`email_verified`/`updated_at`. -/
theorem c3_conflict_frame_counterexample :
    (rowFor [⟨1, "a@b.c", "A", "B", Role.org_admin, some 7, true, true, 0, 0⟩] 1).map
      Profile.role = some Role.org_admin
    ∧ (rowFor (signUp
        { configured := true, authError := none,
          authUser := some ⟨1, "a@b.c", some 1, none, none⟩,
          orgInsertFails := false, newOrgId := 9, profileUpsertFails := false }
        2 "a@b.c" "A" "B" ""
        [⟨1, "a@b.c", "A", "B", Role.org_admin, some 7, true, true, 0, 0⟩]).2 1).map
      Profile.role = some Role.user := by
  constructor
  · rfl
  · decide

/-- C3 amended: only the trigger's upsert (`handle_new_user`) has the
claimed frame — on conflict it writes exactly `email`, `email_verified`
and `updated_at`, preserving role, organization, names, `is_active` and
`created_at`, and leaves rows of other principals untouched.  The
`signUp` upsert instead overwrites every supplied field, so the stored
role is replaced by the newly derived one. -/
theorem c3_conflict_frame_amended (now : Nat) (u : Principal)
    (t : List Profile) (p : Profile)
    (hp : rowFor t u.id = some p) :
    (hasId t u.id = true →
      rowFor (handle_new_user now u t) u.id =
        some { p with email := u.email,
                      email_verified := u.email_confirmed_at.isSome,
                      updated_at := now }
      ∧ (rowFor (handle_new_user now u t) u.id).map Profile.role = some p.role
      ∧ (rowFor (handle_new_user now u t) u.id).map Profile.organization_id =
          some p.organization_id
      ∧ (∀ q ∈ t, q.id ≠ u.id → q ∈ handle_new_user now u t))
    ∧ (∀ (email fn ln : String) (orgId : Option Nat) (r : Role) (c : Bool),
        hasId t u.id = true →
        (rowFor (signUpUpsert now u.id email fn ln orgId r c t) u.id).map
          Profile.role = some r) := by
  constructor
  · intro hhas
    have htab : handle_new_user now u t =
        t.map (fun q => if q.id = u.id then triggerConflictUpdate now u q else q) := by
      simp [handle_new_user, hhas]
    have hrow := rowFor_map_upd t u.id (triggerConflictUpdate now u)
      (fun q => rfl) p hp
    rw [htab, hrow]
    refine ⟨rfl, by simp [triggerConflictUpdate], by simp [triggerConflictUpdate], ?_⟩
    intro q hq hne
    exact List.mem_map.mpr ⟨q, hq, by simp [hne]⟩
  · intro email fn ln orgId r c hhas
    have htab : signUpUpsert now u.id email fn ln orgId r c t =
        t.map (fun q => if q.id = u.id then
          { q with email := email, first_name := fn, last_name := ln,
                   organization_id := orgId, role := r, email_verified := c,
                   created_at := now, updated_at := now } else q) := by
      simp [signUpUpsert, hhas]
    have hrow := rowFor_map_upd t u.id
      (fun q => { q with email := email, first_name := fn, last_name := ln,
                         organization_id := orgId, role := r, email_verified := c,
                         created_at := now, updated_at := now })
      (fun q => rfl) p hp
    rw [htab, hrow]
    simp

/-- C3 amended witness: a concrete super-admin row survives a trigger
re-run with role intact, while a `signUp` upsert overwrites the role. -/
theorem c3_conflict_frame_amended_witness :
    rowFor [⟨4, "e@f.g", "F", "L", Role.super_admin, none, false, true, 0, 0⟩] 4 =
      some ⟨4, "e@f.g", "F", "L", Role.super_admin, none, false, true, 0, 0⟩
    ∧ hasId [⟨4, "e@f.g", "F", "L", Role.super_admin, none, false, true, 0, 0⟩] 4 = true
    ∧ (rowFor (handle_new_user 3 ⟨4, "n@f.g", some 1, none, none⟩
        [⟨4, "e@f.g", "F", "L", Role.super_admin, none, false, true, 0, 0⟩]) 4).map
        Profile.role = some Role.super_admin := by
  refine ⟨rfl, rfl, ?_⟩
  have h := ((c3_conflict_frame_amended 3 ⟨4, "n@f.g", some 1, none, none⟩
      [⟨4, "e@f.g", "F", "L", Role.super_admin, none, false, true, 0, 0⟩]
      ⟨4, "e@f.g", "F", "L", Role.super_admin, none, false, true, 0, 0⟩ rfl).1 rfl).2.1
  simpa using h

/-! ## C4 -/

theorem countId_cons (r : Profile) (t : List Profile) (j : Nat) :
    countId (r :: t) j = (if r.id = j then 1 else 0) + countId t j := by
  by_cases h : r.id = j
  · simp [countId, List.filter_cons, h, Nat.add_comm]
  · simp [countId, List.filter_cons, h]

theorem countId_map (t : List Profile) (f : Profile → Profile)
    (hf : ∀ p, (f p).id = p.id) (j : Nat) :
    countId (t.map f) j = countId t j := by
  induction t with
  | nil => rfl
  | cons a t ih =>
      simp only [List.map_cons]
      rw [countId_cons, countId_cons, hf a, ih]

theorem hasId_eq_true_iff (t : List Profile) (i : Nat) :
    hasId t i = true ↔ 0 < countId t i := by
  unfold hasId countId
  rw [List.any_eq_true, List.length_pos]
  constructor
  · rintro ⟨x, hx, hpx⟩ hnil
    rw [List.filter_eq_nil_iff] at hnil
    exact hnil x hx hpx
  · intro h
    by_contra hne
    apply h
    rw [List.filter_eq_nil_iff]
    intro a ha hpa
    exact hne ⟨a, ha, hpa⟩

theorem hasId_eq_false_countId (t : List Profile) (i : Nat)
    (h : hasId t i = false) : countId t i = 0 := by
  by_contra hne
  have := (hasId_eq_true_iff t i).mpr (Nat.pos_of_ne_zero hne)
  rw [h] at this
  exact Bool.false_ne_true this

/-- Row count after an atomic upsert keyed by id `i` (the shape shared
by `handle_new_user`, `signUpUpsert` and the DO block's insert). -/
theorem countId_upsert (t : List Profile) (i : Nat) (g : Profile → Profile)
    (hg : ∀ p, (g p).id = p.id) (r : Profile) (hr : r.id = i) (j : Nat) :
    countId (if hasId t i then t.map (fun q => if q.id = i then g q else q)
             else r :: t) j =
      if countId t i = 0 then (if i = j then 1 else 0) + countId t j
      else countId t j := by
  by_cases h : hasId t i = true
  · rw [if_pos h,
      countId_map _ _ (fun p => by by_cases hq : p.id = i <;> simp [hq, hg]) j,
      if_neg (Nat.ne_of_gt ((hasId_eq_true_iff t i).mp h))]
  · have hfalse : hasId t i = false := by simpa using h
    have h0 := hasId_eq_false_countId t i hfalse
    rw [if_neg (by rw [hfalse]; simp), countId_cons, hr, if_pos h0]

/-- Row count after the `signUp` profile upsert. -/
theorem countId_signUpUpsert (now : Nat) (uid : Nat) (email fn ln : String)
    (orgId : Option Nat) (r : Role) (c : Bool) (t : List Profile) (j : Nat) :
    countId (signUpUpsert now uid email fn ln orgId r c t) j =
      if countId t uid = 0 then (if uid = j then 1 else 0) + countId t j
      else countId t j :=
  countId_upsert t uid
    (fun q => { q with email := email, first_name := fn, last_name := ln,
                       organization_id := orgId, role := r,
                       email_verified := c, created_at := now,
                       updated_at := now })
    (fun _ => rfl)
    { id := uid, email := email, first_name := fn, last_name := ln,
      role := r, organization_id := orgId, email_verified := c,
      is_active := true, created_at := now, updated_at := now }
    rfl j

/-- The table `signUp` returns is either unchanged or a single upsert
keyed by the authenticated user's id. -/
theorem signUp_table_shape (env : SignUpEnv) (now : Nat)
    (email fn ln orgName : String) (t : List Profile) :
    (signUp env now email fn ln orgName t).2 = t ∨
    ∃ uid orgId r c, (signUp env now email fn ln orgName t).2 =
      signUpUpsert now uid (jsTrim email) fn ln orgId r c t := by
  by_cases hc : env.configured = true
  · cases hae : env.authError with
    | some m => left; simp [signUp, hc, hae]
    | none =>
        cases hau : env.authUser with
        | none => left; simp [signUp, hc, hae, hau]
        | some u =>
            by_cases hup : env.profileUpsertFails = true
            · left; simp [signUp, hc, hae, hau, hup]
            · have hupf : env.profileUpsertFails = false := by simpa using hup
              right
              refine ⟨u.id,
                (signUpRole (jsTrim email)
                  (if jsTrim orgName ≠ "" ∧ ¬env.orgInsertFails then
                    some env.newOrgId else none)).2,
                (signUpRole (jsTrim email)
                  (if jsTrim orgName ≠ "" ∧ ¬env.orgInsertFails then
                    some env.newOrgId else none)).1,
                u.email_confirmed_at.isSome, ?_⟩
              simp [signUp, hc, hae, hau, hupf]
  · left
    simp [signUp, hc]

/-- One store operation keeps all per-id row counts at most one, and
keeps an exactly-one count exactly one. -/
theorem applyOp_count_preserve (t : List Profile) (op : StoreOp) (j : Nat)
    (hall : ∀ i, countId t i ≤ 1) :
    countId (applyOp t op) j ≤ 1 ∧
    (countId t j = 1 → countId (applyOp t op) j = 1) := by
  have upsert_case : ∀ (i : Nat) (g : Profile → Profile)
      (hg : ∀ p, (g p).id = p.id) (r : Profile) (hr : r.id = i)
      (heq : applyOp t op =
        if hasId t i then t.map (fun q => if q.id = i then g q else q)
        else r :: t),
      countId (applyOp t op) j ≤ 1 ∧
      (countId t j = 1 → countId (applyOp t op) j = 1) := by
    intro i g hg r hr heq
    rw [heq, countId_upsert t i g hg r hr j]
    by_cases h0 : countId t i = 0
    · rw [if_pos h0]
      by_cases hij : i = j
      · subst hij
        rw [if_pos rfl, h0]
        exact ⟨by omega, fun h => by omega⟩
      · rw [if_neg hij]
        exact ⟨by simpa using hall j, fun h => by omega⟩
    · rw [if_neg h0]
      exact ⟨hall j, fun h => h⟩
  have map_case : ∀ (f : Profile → Profile) (hf : ∀ p, (f p).id = p.id)
      (heq : applyOp t op = t.map f),
      countId (applyOp t op) j ≤ 1 ∧
      (countId t j = 1 → countId (applyOp t op) j = 1) := by
    intro f hf heq
    rw [heq, countId_map t f hf j]
    exact ⟨hall j, fun h => h⟩
  have id_case : ∀ (heq : applyOp t op = t),
      countId (applyOp t op) j ≤ 1 ∧
      (countId t j = 1 → countId (applyOp t op) j = 1) := by
    intro heq
    rw [heq]
    exact ⟨hall j, fun h => h⟩
  cases op with
  | trigger u now =>
      exact upsert_case u.id (triggerConflictUpdate now u) (fun p => rfl)
        (triggerInsertRow now u) rfl rfl
  | facadeSignUp env now email fn ln orgName =>
      rcases signUp_table_shape env now email fn ln orgName t with h | ⟨uid, orgId, r, c, h⟩
      · exact id_case h
      · have hcnt : ∀ k, countId (applyOp t
            (StoreOp.facadeSignUp env now email fn ln orgName)) k =
            if countId t uid = 0 then (if uid = k then 1 else 0) + countId t k
            else countId t k := by
          intro k
          rw [show applyOp t (StoreOp.facadeSignUp env now email fn ln orgName) =
            (signUp env now email fn ln orgName t).2 from rfl, h,
            countId_signUpUpsert]
        rw [hcnt j]
        by_cases h0 : countId t uid = 0
        · rw [if_pos h0]
          by_cases hij : uid = j
          · subst hij
            rw [if_pos rfl, h0]
            exact ⟨by omega, fun hh => by omega⟩
          · rw [if_neg hij]
            exact ⟨by simpa using hall j, fun hh => by omega⟩
        · rw [if_neg h0]
          exact ⟨hall j, fun hh => hh⟩
  | reconcile now =>
      match hf : t.find? (fun q => q.email = superAdminEmail) with
      | none => exact id_case (ensureSuperAdmin_none now t hf)
      | some p =>
          by_cases hrole : p.role = Role.super_admin
          · exact id_case (ensureSuperAdmin_noop now t p hf hrole)
          · exact map_case _
              (fun q => by by_cases h : q.email = superAdminEmail <;> simp [h, saFix])
              (ensureSuperAdmin_fix now t p hf hrole)
  | migrate authUsers now =>
      by_cases hany : t.any (fun q => q.email = superAdminEmail) = true
      · exact map_case
          (fun q => if q.email = superAdminEmail then saFix now q else q)
          (fun q => by by_cases h : q.email = superAdminEmail <;> simp [h, saFix])
          (by simp [applyOp, migrationBootstrap, hany])
      · cases hfu : authUsers.find? (fun v => v.email = superAdminEmail) with
        | none =>
            exact id_case (by simp [applyOp, migrationBootstrap, hany, hfu])
        | some u =>
            exact upsert_case u.id (doBlockConflictUpdate now) (fun p => rfl)
              { id := u.id, email := u.email, first_name := "Super",
                last_name := "Admin", role := Role.super_admin,
                organization_id := none, email_verified := true,
                is_active := true, created_at := now, updated_at := now }
              rfl
              (by simp [applyOp, migrationBootstrap, hany, hfu])

/-- C4: after a successful `signUp` for principal `u`, the table holds
exactly one row with `u`'s id, and this stays true under any further
sequence of bootstrap-trigger runs, `signUp` runs, reconciliation runs
and migration runs, in any order; moreover every id keeps at most one
row throughout. -/
theorem c4_unique_profile_row (env : SignUpEnv) (now : Nat)
    (email fn ln orgName : String) (t : List Profile) (u : Principal)
    (hall : ∀ i, countId t i ≤ 1)
    (hconf : env.configured = true) (hae : env.authError = none)
    (hau : env.authUser = some u) (hup : env.profileUpsertFails = false)
    (ops : List StoreOp) :
    countId (ops.foldl applyOp (signUp env now email fn ln orgName t).2) u.id = 1
    ∧ ∀ i, countId (ops.foldl applyOp (signUp env now email fn ln orgName t).2) i ≤ 1 := by
  have hfold : ∀ (ops : List StoreOp) (s : List Profile),
      (∀ i, countId s i ≤ 1) → countId s u.id = 1 →
      countId (ops.foldl applyOp s) u.id = 1 ∧
      ∀ i, countId (ops.foldl applyOp s) i ≤ 1 := by
    intro ops
    induction ops with
    | nil => intro s h1 h2; exact ⟨h2, h1⟩
    | cons op ops ih =>
        intro s h1 h2
        exact ih (applyOp s op)
          (fun i => (applyOp_count_preserve s op i h1).1)
          ((applyOp_count_preserve s op u.id h1).2 h2)
  have htab : (signUp env now email fn ln orgName t).2 =
      signUpUpsert now u.id (jsTrim email) fn ln
        (signUpRole (jsTrim email)
          (if jsTrim orgName ≠ "" ∧ ¬env.orgInsertFails then some env.newOrgId else none)).2
        (signUpRole (jsTrim email)
          (if jsTrim orgName ≠ "" ∧ ¬env.orgInsertFails then some env.newOrgId else none)).1
        u.email_confirmed_at.isSome t := by
    simp [signUp, hconf, hae, hau, hup]
  have hcount1 : countId (signUp env now email fn ln orgName t).2 u.id = 1 := by
    rw [htab, countId_signUpUpsert]
    by_cases h0 : countId t u.id = 0
    · rw [if_pos h0, if_pos rfl, h0]
    · rw [if_neg h0]
      have := hall u.id
      omega
  have hcountall : ∀ i, countId (signUp env now email fn ln orgName t).2 i ≤ 1 := by
    intro i
    rw [htab, countId_signUpUpsert]
    by_cases h0 : countId t u.id = 0
    · rw [if_pos h0]
      by_cases hij : u.id = i
      · subst hij; rw [if_pos rfl, h0]
      · rw [if_neg hij]
        simpa using hall i
    · rw [if_neg h0]
      exact hall i
  exact hfold ops _ hcountall hcount1

/-- C4 witness: signing up principal 1 on an empty table, then a
trigger re-run and a reconciliation, leaves exactly one row with id 1. -/
theorem c4_unique_profile_row_witness :
    (∀ i, countId [] i ≤ 1) ∧
    countId ([StoreOp.trigger ⟨1, "w@x.y", some 1, none, none⟩ 3,
              StoreOp.reconcile 4].foldl applyOp
      (signUp { configured := true, authError := none,
                authUser := some ⟨1, "w@x.y", some 1, none, none⟩,
                orgInsertFails := false, newOrgId := 5,
                profileUpsertFails := false }
        2 "w@x.y" "W" "X" "" []).2) 1 = 1 := by
  constructor
  · intro i; simp [countId]
  · exact (c4_unique_profile_row
      { configured := true, authError := none,
        authUser := some ⟨1, "w@x.y", some 1, none, none⟩,
        orgInsertFails := false, newOrgId := 5, profileUpsertFails := false }
      2 "w@x.y" "W" "X" "" [] ⟨1, "w@x.y", some 1, none, none⟩
      (fun i => by simp [countId]) rfl rfl rfl rfl
      [StoreOp.trigger ⟨1, "w@x.y", some 1, none, none⟩ 3,
       StoreOp.reconcile 4]).1

/-! ## C5 -/

/-- C5 counterexample: the claim's error-reporting half is false.  For a
`user` actor (id 1) selecting the existing profile row of id 2, the
policy denies the row, but the outcome is the PGRST116 not-found error,
not an `AuthorizationError`. -/
theorem c5_user_select_counterexample :
    hasId [⟨1, "a@x", "", "", Role.user, none, true, true, 0, 0⟩,
           ⟨2, "b@x", "", "", Role.user, none, true, true, 0, 0⟩] 2 = true
    ∧ selectProfileById ⟨1, "a@x", "", "", Role.user, none, true, true, 0, 0⟩
        [⟨1, "a@x", "", "", Role.user, none, true, true, 0, 0⟩,
         ⟨2, "b@x", "", "", Role.user, none, true, true, 0, 0⟩] 2 =
        FetchOutcome.notFoundPGRST116
    ∧ FetchOutcome.notFoundPGRST116 ≠ FetchOutcome.authorizationError := by
  refine ⟨rfl, rfl, by simp⟩

/-- C5 amended: a `user` actor may select and update exactly its own
Profile row — the select policies grant no other row, and a `.single()`
fetch of the own row succeeds — but the denial of another principal's
row surfaces to the actor as the PGRST116 not-found outcome, not as an
`AuthorizationError`. -/
theorem c5_user_select_own_only (actor : Profile) (t : List Profile)
    (p : Profile) (hrole : actor.role = Role.user) :
    (∀ target : Profile, canSelectProfile actor target = true ↔
        actor.id = target.id)
    ∧ (∀ target : Profile, target.id = actor.id →
        updateAllowed actor target target = true)
    ∧ (t.filter (fun q => q.id = actor.id) = [p] →
        selectProfileById actor t actor.id = FetchOutcome.row p)
    ∧ (∀ i, i ≠ actor.id →
        selectProfileById actor t i = FetchOutcome.notFoundPGRST116) := by
  have hcan : ∀ target : Profile, canSelectProfile actor target = true ↔
      actor.id = target.id := by
    intro target
    simp [canSelectProfile, hrole]
  refine ⟨hcan, ?_, ?_, ?_⟩
  · intro target hid
    simp [updateAllowed, canUpdateProfile, hid]
  · intro hfilter
    have hsame : t.filter (fun q => q.id = actor.id &&
        canSelectProfile actor q) = t.filter (fun q => q.id = actor.id) := by
      apply List.filter_congr
      intro q hq
      by_cases h : q.id = actor.id
      · have : canSelectProfile actor q = true := (hcan q).mpr h.symm
        simp [h, this]
      · simp [h]
    unfold selectProfileById
    rw [hsame, hfilter]
  · intro i hi
    have hnil : t.filter (fun q => q.id = i && canSelectProfile actor q) = [] := by
      rw [List.filter_eq_nil_iff]
      intro q hq
      by_cases h : q.id = i
      · have : ¬canSelectProfile actor q = true := by
          rw [hcan q]
          rw [h]
          exact fun hc => hi hc.symm
        simp [h, this]
      · simp [h]
    unfold selectProfileById
    rw [hnil]

/-- C5 amended witness: the actor of id 3 selects its own row and gets
it; selecting id 4 yields the not-found outcome. -/
theorem c5_user_select_own_only_witness :
    (⟨3, "u@x", "", "", Role.user, some 1, true, true, 0, 0⟩ : Profile).role =
      Role.user
    ∧ ([(⟨3, "u@x", "", "", Role.user, some 1, true, true, 0, 0⟩ : Profile)].filter
        (fun q => q.id = 3) =
        [⟨3, "u@x", "", "", Role.user, some 1, true, true, 0, 0⟩])
    ∧ selectProfileById ⟨3, "u@x", "", "", Role.user, some 1, true, true, 0, 0⟩
        [⟨3, "u@x", "", "", Role.user, some 1, true, true, 0, 0⟩] 3 =
        FetchOutcome.row ⟨3, "u@x", "", "", Role.user, some 1, true, true, 0, 0⟩
    ∧ selectProfileById ⟨3, "u@x", "", "", Role.user, some 1, true, true, 0, 0⟩
        [⟨3, "u@x", "", "", Role.user, some 1, true, true, 0, 0⟩] 4 =
        FetchOutcome.notFoundPGRST116 := by
  refine ⟨rfl, rfl, ?_, ?_⟩
  · exact (c5_user_select_own_only
      ⟨3, "u@x", "", "", Role.user, some 1, true, true, 0, 0⟩
      [⟨3, "u@x", "", "", Role.user, some 1, true, true, 0, 0⟩]
      ⟨3, "u@x", "", "", Role.user, some 1, true, true, 0, 0⟩ rfl).2.2.1 rfl
  · exact (c5_user_select_own_only
      ⟨3, "u@x", "", "", Role.user, some 1, true, true, 0, 0⟩
      [⟨3, "u@x", "", "", Role.user, some 1, true, true, 0, 0⟩]
      ⟨3, "u@x", "", "", Role.user, some 1, true, true, 0, 0⟩ rfl).2.2.2 4
      (by simp)

/-! ## C6 -/

/-- C6: org-scoped visibility.  An `org_admin` or `manager` whose stored
profile has `organization_id = some a` can select every profile with
`organization_id = some a`; it cannot select a profile of a different
organization `b ≠ a` (other than its own row); and a `super_admin` can
select every profile row. -/
theorem c6_org_scoped_select (actor target sa : Profile) (a b : Nat)
    (hrole : actor.role = Role.org_admin ∨ actor.role = Role.manager)
    (horg : actor.organization_id = some a) :
    (target.organization_id = some a → canSelectProfile actor target = true)
    ∧ (target.organization_id = some b → b ≠ a → target.id ≠ actor.id →
        canSelectProfile actor target = false)
    ∧ (sa.role = Role.super_admin → canSelectProfile sa target = true) := by
  refine ⟨?_, ?_, ?_⟩
  · intro htarget
    rcases hrole with h | h <;>
      simp [canSelectProfile, h, sqlOrgEq, horg, htarget]
  · intro htarget hba hid
    have hidne : ¬actor.id = target.id := fun hh => hid hh.symm
    rcases hrole with h | h <;>
      simp [canSelectProfile, h, sqlOrgEq, horg, htarget, hidne, hba, Ne.symm hba]
  · intro hsa
    simp [canSelectProfile, hsa]

/-- C6 witness: an `org_admin` of organization 1 sees a member of
organization 1, not one of organization 2; a super admin sees the
latter. -/
theorem c6_org_scoped_select_witness :
    canSelectProfile ⟨5, "oa@x", "", "", Role.org_admin, some 1, true, true, 0, 0⟩
        ⟨6, "m@x", "", "", Role.user, some 1, true, true, 0, 0⟩ = true
    ∧ canSelectProfile ⟨5, "oa@x", "", "", Role.org_admin, some 1, true, true, 0, 0⟩
        ⟨7, "o@x", "", "", Role.user, some 2, true, true, 0, 0⟩ = false
    ∧ canSelectProfile ⟨8, "sa@x", "", "", Role.super_admin, none, true, true, 0, 0⟩
        ⟨7, "o@x", "", "", Role.user, some 2, true, true, 0, 0⟩ = true := by
  have h1 := c6_org_scoped_select
    ⟨5, "oa@x", "", "", Role.org_admin, some 1, true, true, 0, 0⟩
    ⟨6, "m@x", "", "", Role.user, some 1, true, true, 0, 0⟩
    ⟨8, "sa@x", "", "", Role.super_admin, none, true, true, 0, 0⟩
    1 2 (Or.inl rfl) rfl
  have h2 := c6_org_scoped_select
    ⟨5, "oa@x", "", "", Role.org_admin, some 1, true, true, 0, 0⟩
    ⟨7, "o@x", "", "", Role.user, some 2, true, true, 0, 0⟩
    ⟨8, "sa@x", "", "", Role.super_admin, none, true, true, 0, 0⟩
    1 2 (Or.inl rfl) rfl
  exact ⟨h1.1 rfl, h2.2.1 rfl (by simp) (by simp), h2.2.2 rfl⟩

/-! ## C8 -/

/-- C8 counterexample: a `user` actor's denied read of the EXISTING row
id 12 yields exactly the same outcome (`PGRST116` not-found) as reading
the absent row id 12 from a table that lacks it — and the engine never
reports an `AuthorizationError`. -/
theorem c8_denied_read_counterexample :
    hasId [⟨11, "p@z", "", "", Role.user, none, true, true, 0, 0⟩,
           ⟨12, "q@z", "", "", Role.user, none, true, true, 0, 0⟩] 12 = true
    ∧ selectProfileById ⟨11, "p@z", "", "", Role.user, none, true, true, 0, 0⟩
        [⟨11, "p@z", "", "", Role.user, none, true, true, 0, 0⟩,
         ⟨12, "q@z", "", "", Role.user, none, true, true, 0, 0⟩] 12 =
      selectProfileById ⟨11, "p@z", "", "", Role.user, none, true, true, 0, 0⟩
        [⟨11, "p@z", "", "", Role.user, none, true, true, 0, 0⟩] 12
    ∧ selectProfileById ⟨11, "p@z", "", "", Role.user, none, true, true, 0, 0⟩
        [⟨11, "p@z", "", "", Role.user, none, true, true, 0, 0⟩,
         ⟨12, "q@z", "", "", Role.user, none, true, true, 0, 0⟩] 12 ≠
      FetchOutcome.authorizationError := by
  refine ⟨rfl, rfl, by simp [selectProfileById, canSelectProfile]⟩

/-- C8 amended: a policy-denied read of an existing Profile row is NOT
distinguishable from not-found — both produce the PGRST116 outcome, and
the select path never produces an `AuthorizationError` for any actor,
table and id.  (`getCurrentProfile` accordingly treats PGRST116 as
"profile missing".) -/
theorem c8_denied_read_amended (actor : Profile) (t : List Profile) (i : Nat) :
    ((∀ q ∈ t, q.id = i → canSelectProfile actor q = false) →
      selectProfileById actor t i = FetchOutcome.notFoundPGRST116)
    ∧ (hasId t i = false →
      selectProfileById actor t i = FetchOutcome.notFoundPGRST116)
    ∧ selectProfileById actor t i ≠ FetchOutcome.authorizationError := by
  refine ⟨?_, ?_, ?_⟩
  · intro hdeny
    have hnil : t.filter (fun q => q.id = i && canSelectProfile actor q) = [] := by
      rw [List.filter_eq_nil_iff]
      intro q hq
      by_cases h : q.id = i
      · have := hdeny q hq h
        simp [h, this]
      · simp [h]
    unfold selectProfileById
    rw [hnil]
  · intro habs
    have hnil : t.filter (fun q => q.id = i && canSelectProfile actor q) = [] := by
      rw [List.filter_eq_nil_iff]
      intro q hq
      have : ¬q.id = i := by
        intro h
        have : hasId t i = true := List.any_eq_true.mpr ⟨q, hq, by simp [h]⟩
        rw [habs] at this
        exact Bool.false_ne_true this
      simp [this]
    unfold selectProfileById
    rw [hnil]
  · unfold selectProfileById
    cases h : t.filter (fun q => q.id = i && canSelectProfile actor q) with
    | nil => simp
    | cons a l =>
        cases l with
        | nil => simp
        | cons b l2 => simp

/-- C8 amended witness: an empty table and a fully-denying actor both
yield the PGRST116 outcome for id 9. -/
theorem c8_denied_read_amended_witness :
    hasId [] 9 = false
    ∧ selectProfileById ⟨1, "w@z", "", "", Role.user, none, true, true, 0, 0⟩
        [] 9 = FetchOutcome.notFoundPGRST116
    ∧ selectProfileById ⟨1, "w@z", "", "", Role.user, none, true, true, 0, 0⟩
        [] 9 ≠ FetchOutcome.authorizationError := by
  have h := c8_denied_read_amended
    ⟨1, "w@z", "", "", Role.user, none, true, true, 0, 0⟩ [] 9
  exact ⟨rfl, h.2.1 rfl, h.2.2⟩

/-! ## C7 -/

/-- C7: bootstrap errors never abort the authentication flow.  The
trigger's exception handler makes `handle_new_user` return success to
the auth operation whether or not its profile write failed; `signUp`
returns `{success: true}` once the auth-level sign-up succeeded, for
every organization-creation and profile-upsert outcome; and a missing
profile is recovered lazily: `getCurrentProfile` creates and returns
the row on the next fetch. -/
theorem c7_bootstrap_errors_nonfatal (f : Bool) (now : Nat) (u : Principal)
    (t : List Profile) (env : SignUpEnv) (email fn ln orgName : String)
    (hconf : env.configured = true) (hae : env.authError = none) :
    ((handle_new_user_run f now u t).1 = true)
    ∧ ((signUp env now email fn ln orgName t).1.success = true)
    ∧ (∀ u' : Principal, rowFor t u'.id = none →
        (getCurrentProfile true (some u') false now t).1 =
          some { id := u'.id, email := u'.email,
                 email_verified := u'.email_confirmed_at.isSome,
                 role := if u'.email = superAdminEmail then Role.super_admin
                         else Role.user,
                 first_name := u'.meta_first_name.getD "",
                 last_name := u'.meta_last_name.getD "",
                 organization_id := none, is_active := true,
                 created_at := now, updated_at := now }) := by
  refine ⟨?_, ?_, ?_⟩
  · cases f <;> simp [handle_new_user_run]
  · cases hau : env.authUser with
    | none => simp [signUp, hconf, hae, hau]
    | some u' => simp [signUp, hconf, hae, hau]
  · intro u' hmissing
    unfold getCurrentProfile
    rw [show (rowFor t u'.id = none) = (t.find? (fun p => p.id = u'.id) = none)
      from rfl] at hmissing
    simp [hmissing]

/-- C7 witness: with both the organization insert and the profile upsert
failing, `signUp` still reports success; the trigger reports success on
a failed write; a missing profile is created on fetch. -/
theorem c7_bootstrap_errors_nonfatal_witness :
    (handle_new_user_run true 0 ⟨1, "q@r.s", none, none, none⟩ []).1 = true
    ∧ (signUp { configured := true, authError := none,
                authUser := some ⟨1, "q@r.s", none, none, none⟩,
                orgInsertFails := true, newOrgId := 0,
                profileUpsertFails := true }
        0 "q@r.s" "Q" "R" "Org" []).1.success = true := by
  have h := c7_bootstrap_errors_nonfatal true 0 ⟨1, "q@r.s", none, none, none⟩
    [] { configured := true, authError := none,
         authUser := some ⟨1, "q@r.s", none, none, none⟩,
         orgInsertFails := true, newOrgId := 0, profileUpsertFails := true }
    "q@r.s" "Q" "R" "Org" rfl rfl
  exact ⟨h.1, h.2.1⟩

/-! ## C9 -/

/-- C9 counterexample: `resetPassword` called while the store is not
configured raises (`throw new Error(...)` sits before its `try` block),
instead of returning a `{success, error}` value — refuting the claim
that every facade operation surfaces every error as a returned result. -/
theorem c9_facade_no_throw_counterexample :
    resetPassword false none =
      Except.error "Authentication service not configured"
    ∧ isReturned (resetPassword false none) = false := ⟨rfl, rfl⟩

/-- C9 amended: every facade operation returns its errors as a
`{success, error?}` value — `signIn`, `signUp`, `signOut`,
`updatePassword` and `updateProfile` for every input, and
`resetPassword` only when the store is configured; with the store
unconfigured, `resetPassword` raises instead. -/
theorem c9_facade_results_amended (configured : Bool) (e : Option String)
    (env : SignUpEnv) (now : Nat) (email fn ln orgName : String)
    (t : List Profile) (cu : Option Nat) (patch : ProfilePatch) :
    isReturned (signIn configured e) = true
    ∧ isReturned (signUpResult env now email fn ln orgName t) = true
    ∧ isReturned (signOut e) = true
    ∧ isReturned (updatePassword e) = true
    ∧ isReturned (updateProfileResult cu patch now t) = true
    ∧ (configured = true → isReturned (resetPassword configured e) = true)
    ∧ isReturned (resetPassword false e) = false := by
  refine ⟨?_, rfl, ?_, ?_, rfl, ?_, ?_⟩
  · cases e <;> by_cases hc : configured = true <;> simp [signIn, isReturned, hc]
  · cases e <;> rfl
  · cases e <;> rfl
  · intro hc
    subst hc
    cases e <;> rfl
  · cases e <;> rfl

/-- C9 amended witness: with the store configured, `resetPassword`
returns a result. -/
theorem c9_facade_results_amended_witness :
    isReturned (resetPassword true none) = true
    ∧ isReturned (signOut (some "boom")) = true := by
  have h := c9_facade_results_amended true none
    { configured := true, authError := none, authUser := none,
      orgInsertFails := false, newOrgId := 0, profileUpsertFails := false }
    0 "a" "b" "c" "d" [] none {}
  exact ⟨h.2.2.2.2.2.1 rfl, (c9_facade_results_amended true (some "boom")
    { configured := true, authError := none, authUser := none,
      orgInsertFails := false, newOrgId := 0, profileUpsertFails := false }
    0 "a" "b" "c" "d" [] none {}).2.2.1⟩

/-! ## C10 -/

/-- C10: the own-row update policy checks only the row's id, never the
written values: any authenticated actor may update its own Profile row
to arbitrary values — including `role := super_admin` and any
`organization_id` — and `updateProfile` forwards arbitrary
caller-supplied fields into exactly such an update and reports
success. -/
theorem c10_self_update_unrestricted (uid : Nat) (p : Profile)
    (t : List Profile) (patch : ProfilePatch) (now : Nat)
    (hid : p.id = uid) (hmem : p ∈ t) :
    updateAllowed p p (applyPatch patch now p) = true
    ∧ (updateProfile (some uid) patch now t).1.success = true
    ∧ applyPatch patch now p ∈ (updateProfile (some uid) patch now t).2
    ∧ (∀ r, patch.role = some r → (applyPatch patch now p).role = r)
    ∧ (∀ o, patch.organization_id = some o →
        (applyPatch patch now p).organization_id = o) := by
  have hallow : updateAllowed p p (applyPatch patch now p) = true := by
    simp [updateAllowed, canUpdateProfile, applyPatch]
  have hany : t.any (fun q => q.id = uid &&
      updateAllowed q q (applyPatch patch now q)) = true :=
    List.any_eq_true.mpr ⟨p, hmem, by simp [hid, hallow]⟩
  refine ⟨hallow, ?_, ?_, ?_, ?_⟩
  · simp [updateProfile, hany]
  · have htab : (updateProfile (some uid) patch now t).2 =
        t.map (fun q => if q.id = uid &&
          updateAllowed q q (applyPatch patch now q) then
            applyPatch patch now q else q) := by
      simp [updateProfile, hany]
    rw [htab]
    exact List.mem_map.mpr ⟨p, hmem, by simp [hid, hallow]⟩
  · intro r h
    simp [applyPatch, h]
  · intro o h
    simp [applyPatch, h]

/-- C10 witness: a `user` updates its own row, setting
`role := super_admin` and `organization_id := 42`; the policy admits it
and the facade reports success. -/
theorem c10_self_update_unrestricted_witness :
    (⟨2, "m@n.o", "M", "N", Role.user, none, true, true, 0, 0⟩ : Profile).id = 2
    ∧ updateAllowed ⟨2, "m@n.o", "M", "N", Role.user, none, true, true, 0, 0⟩
        ⟨2, "m@n.o", "M", "N", Role.user, none, true, true, 0, 0⟩
        (applyPatch { role := some Role.super_admin,
                      organization_id := some (some 42) } 1
          ⟨2, "m@n.o", "M", "N", Role.user, none, true, true, 0, 0⟩) = true
    ∧ (updateProfile (some 2)
        { role := some Role.super_admin, organization_id := some (some 42) } 1
        [⟨2, "m@n.o", "M", "N", Role.user, none, true, true, 0, 0⟩]).1.success = true
    ∧ (applyPatch { role := some Role.super_admin,
                    organization_id := some (some 42) } 1
        ⟨2, "m@n.o", "M", "N", Role.user, none, true, true, 0, 0⟩).role =
      Role.super_admin := by
  have h := c10_self_update_unrestricted 2
    ⟨2, "m@n.o", "M", "N", Role.user, none, true, true, 0, 0⟩
    [⟨2, "m@n.o", "M", "N", Role.user, none, true, true, 0, 0⟩]
    { role := some Role.super_admin, organization_id := some (some 42) } 1
    rfl (List.mem_singleton.mpr rfl)
  exact ⟨rfl, h.1, h.2.1, h.2.2.2.1 Role.super_admin rfl⟩

end WorkflowGene
